import Mathlib

/-!
Verification of the MQTT broker / camera / drone coordination system
(repository `1c24-tp_taller_de_programacion`) against its natural-language
specification.  Each Rust function relevant to the checked properties is
shallowly embedded as an executable Lean definition; machine integers are
modelled as `Nat` (with `% 256` where `u8` truncation matters), strings as
`String` or byte lists, fallible code as `Option`/`Except`, and the stateful
loops as explicit state passing.
-/

namespace Monitoreo

/-- Modelled from the spec: `AppsMqttTopics` (file `apps_mqtt_topics.rs` is not
among the provided sources).  The spec fixes the literal topic strings
`cam`, `dron`, `inc`, `desc`. -/
inductive AppsMqttTopics where
  | cameraTopic
  | dronTopic
  | incidentTopic
  | descTopic
deriving DecidableEq, Repr

/-- Modelled from the spec: `AppsMqttTopics::topic_from_str`, which fails on a
string that is none of the four literal topics (the `?` in `is_newer`
propagates that failure). -/
def topic_from_str (s : String) : Option AppsMqttTopics :=
  if s = "cam" then some .cameraTopic
  else if s = "dron" then some .dronTopic
  else if s = "inc" then some .incidentTopic
  else if s = "desc" then some .descTopic
  else none

/-- Modelled from the spec: a received PUBLISH as seen by the monitoring
consumer.  `get_topic` and `get_timestamp` are fields of `PublishMessage`;
`entityId` is the `u8` id extracted by `DronCurrentInfo::from_bytes` /
`Camera::from_bytes` from the payload (those files are not among the provided
sources; the spec gives the serialized formats with the id as first byte). -/
structure MonPublish where
  topic : String
  entityId : Nat
  timestamp : Nat
deriving DecidableEq, Repr

/-- The `timestamp_by_topic` map of `SistemaMonitoreo`
(`HashMap<(String, u8), u128>`), embedded as an association list with unique
keys. -/
abbrev TsMap := List ((String × Nat) × Nat)

/-- Lookup in `timestamp_by_topic`. -/
def lookupTs : TsMap → (String × Nat) → Option Nat
  | [], _ => none
  | p :: rest, k => if p.1 = k then some p.2 else lookupTs rest k

/-- Store a value for a key that is already present (the in-place `*last_timestamp = rcv_timestamp`). -/
def setTs : TsMap → (String × Nat) → Nat → TsMap
  | [], _, _ => []
  | p :: rest, k, v => if p.1 = k then (p.1, v) :: rest else p :: setTs rest k v

/-- Embeds `SistemaMonitoreo::update_timestamp_if_newer`
(`sistema_monitoreo.rs:247-262`): `entry(key).or_insert(rcv_timestamp)`, then
if `rcv_timestamp >= *last_timestamp` store the received value and return
`true`, else return `false`. -/
def update_timestamp_if_newer (m : TsMap) (msg_topic : String) (id : Nat)
    (rcv_timestamp : Nat) : TsMap × Bool :=
  let key := (msg_topic, id)
  match lookupTs m key with
  | none =>
      -- `or_insert` stores `rcv_timestamp`; then `rcv_timestamp >= rcv_timestamp` holds
      (m ++ [(key, rcv_timestamp)], true)
  | some last =>
      if last ≤ rcv_timestamp then (setTs m key rcv_timestamp, true)
      else (m, false)

/-- Embeds `SistemaMonitoreo::is_newer` (`sistema_monitoreo.rs:227-244`): on
the drone and camera topics it calls `update_timestamp_if_newer` and discards
the returned boolean (the `match` result is dropped by the trailing `;`);
every successful path ends in `Ok(true)`.  `none` models the `Err` propagated
by `?` on an unknown topic. -/
def is_newer (m : TsMap) (msg : MonPublish) : Option (TsMap × Bool) :=
  match topic_from_str msg.topic with
  | none => none
  | some .dronTopic =>
      let r := update_timestamp_if_newer m msg.topic msg.entityId msg.timestamp
      some (r.1, true)
  | some .cameraTopic =>
      let r := update_timestamp_if_newer m msg.topic msg.entityId msg.timestamp
      some (r.1, true)
  | some _ => some (m, true)

/-- Embeds the receive loop of
`SistemaMonitoreo::receive_messages_from_subscribed_topics`
(`sistema_monitoreo.rs:207-225`) restricted to its effect on
`timestamp_by_topic`: each message goes through `is_newer`; an `Err` from
`is_newer` aborts the loop (the `?` at the call site). -/
def process_messages (m : TsMap) : List MonPublish → TsMap
  | [] => m
  | msg :: rest =>
      match is_newer m msg with
      | none => m
      | some (m', _forwarded) => process_messages m' rest

/-- C1: the claim says a drone/camera-topic PUBLISH is suppressed when its
timestamp is strictly below the stored timestamp for `(topic, entity-id)`.
The code never suppresses: `is_newer` drops the boolean computed by
`update_timestamp_if_newer` and returns `Ok(true)` unconditionally.  At the
failing input — stored timestamp 10 for key `("dron", 1)`, incoming message
with timestamp 5 — the message is still forwarded (`true`), although
`update_timestamp_if_newer` itself reports `false`. -/
theorem is_newer_forwards_stale_message :
    is_newer [(("dron", 1), 10)] ⟨"dron", 1, 5⟩ = some ([(("dron", 1), 10)], true) ∧
    (update_timestamp_if_newer [(("dron", 1), 10)] "dron" 1 5).2 = false ∧
    5 < 10 := by
  refine ⟨?_, ?_, ?_⟩ <;> decide

theorem lookupTs_append_right (m : TsMap) (e : (String × Nat) × Nat)
    (k : String × Nat) (v : Nat) (h : lookupTs m k = some v) :
    lookupTs (m ++ [e]) k = some v := by
  induction m with
  | nil => simp [lookupTs] at h
  | cons p rest ih =>
      by_cases hp : p.1 = k
      · simpa [lookupTs, hp] using h
      · simp only [lookupTs, if_neg hp, List.cons_append] at h ⊢
        exact ih h

theorem lookupTs_setTs_self (m : TsMap) (k : String × Nat) (v w : Nat)
    (h : lookupTs m k = some w) : lookupTs (setTs m k v) k = some v := by
  induction m with
  | nil => simp [lookupTs] at h
  | cons p rest ih =>
      by_cases hp : p.1 = k
      · simp [lookupTs, setTs, hp]
      · simp only [lookupTs, setTs, if_neg hp] at h ⊢
        exact ih h

theorem lookupTs_setTs_ne (m : TsMap) (k k' : String × Nat) (v : Nat)
    (hne : k' ≠ k) : lookupTs (setTs m k v) k' = lookupTs m k' := by
  induction m with
  | nil => simp [setTs]
  | cons p rest ih =>
      by_cases hp : p.1 = k
      · have h1 : ¬ k = k' := fun hc => hne hc.symm
        have hp' : ¬ p.1 = k' := by rw [hp]; exact h1
        simp [lookupTs, setTs, hp, hp', h1]
      · simp only [setTs, if_neg hp, lookupTs]
        by_cases hq : p.1 = k'
        · simp [hq]
        · simp only [if_neg hq]
          exact ih

theorem update_monotone_pointwise (m : TsMap) (t : String) (i r : Nat)
    (k : String × Nat) (v : Nat) (h : lookupTs m k = some v) :
    ∃ v', lookupTs (update_timestamp_if_newer m t i r).1 k = some v' ∧ v ≤ v' := by
  cases hlk : lookupTs m (t, i) with
  | none =>
      refine ⟨v, ?_, le_refl v⟩
      simp only [update_timestamp_if_newer, hlk]
      exact lookupTs_append_right m ((t, i), r) k v h
  | some last =>
      by_cases hle : last ≤ r
      · by_cases hk : k = (t, i)
        · have h' : lookupTs m (t, i) = some v := hk ▸ h
          have hv : v = last := by rw [h'] at hlk; exact (Option.some.inj hlk)
          refine ⟨r, ?_, hv ▸ hle⟩
          simp only [update_timestamp_if_newer, hlk, if_pos hle, hk]
          exact lookupTs_setTs_self m (t, i) r v h'
        · refine ⟨v, ?_, le_refl v⟩
          simp only [update_timestamp_if_newer, hlk, if_pos hle]
          exact (lookupTs_setTs_ne m (t, i) k r hk).trans h
      · refine ⟨v, ?_, le_refl v⟩
        simp only [update_timestamp_if_newer, hlk, if_neg hle]
        exact h

/-- C10: across any sequence of received messages, the stored timestamp for a
key `(topic, entity-id)` never decreases and the key is never removed:
whatever `timestamp_by_topic` maps `k` to before processing, it still maps
`k` to an at-least-as-large value afterwards. -/
theorem timestamp_by_topic_monotone (msgs : List MonPublish) (m : TsMap)
    (k : String × Nat) (v : Nat) (h : lookupTs m k = some v) :
    ∃ v', lookupTs (process_messages m msgs) k = some v' ∧ v ≤ v' := by
  induction msgs generalizing m v with
  | nil => exact ⟨v, h, le_refl v⟩
  | cons msg rest ih =>
      unfold process_messages is_newer
      cases htf : topic_from_str msg.topic with
      | none => exact ⟨v, h, le_refl v⟩
      | some tp =>
          cases tp with
          | dronTopic =>
              obtain ⟨v', hv', hle⟩ :=
                update_monotone_pointwise m msg.topic msg.entityId msg.timestamp k v h
              obtain ⟨v'', hv'', hle'⟩ := ih _ _ hv'
              exact ⟨v'', hv'', le_trans hle hle'⟩
          | cameraTopic =>
              obtain ⟨v', hv', hle⟩ :=
                update_monotone_pointwise m msg.topic msg.entityId msg.timestamp k v h
              obtain ⟨v'', hv'', hle'⟩ := ih _ _ hv'
              exact ⟨v'', hv'', le_trans hle hle'⟩
          | incidentTopic => exact ih _ _ h
          | descTopic => exact ih _ _ h

/-- Witness for `timestamp_by_topic_monotone` at a concrete input: stored
timestamp 10 for `("dron", 1)`, then a stale message with timestamp 5 and a
fresh one with timestamp 42 arrive. -/
theorem timestamp_by_topic_monotone_witness :
    ∃ v', lookupTs (process_messages [(("dron", 1), 10)]
        [⟨"dron", 1, 5⟩, ⟨"dron", 1, 42⟩]) ("dron", 1) = some v' ∧ 10 ≤ v' :=
  timestamp_by_topic_monotone [⟨"dron", 1, 5⟩, ⟨"dron", 1, 42⟩]
    [(("dron", 1), 10)] ("dron", 1) 10 (by decide)

end Monitoreo

namespace Retransmitter

/-- The packet-type tag returned by `Message::get_type`
(`wait_for_ack_and_retransmit` matches on `Publish`, `Subscribe`, `_`). -/
inductive MqttPacketType where
  | publish
  | subscribe
  | connect
  | disconnect
deriving DecidableEq, Repr

/-- A message handed to `Retransmitter::send_and_retransmit`: its tag
(`get_type`), its QoS (`get_qos`, meaningful for PUBLISH), its packet
identifier (`get_packet_id`, an `Option<u16>`), and its encoding
(`to_bytes`, recomputed identically at every send). -/
structure ClientMessage where
  ptype : MqttPacketType
  qos : Nat
  packetId : Option Nat
  bytes : List Nat
deriving DecidableEq, Repr

/-- One outcome of `ack_rx.recv_timeout` in
`start_waiting_and_check_for_ack`: `some a` is `Ok(ack)` with
`ack.get_packet_id() = a`; `none` is `Err` (timeout, or channel
disconnected — both fall through to `Ok(false)`). -/
abbrev AckEvent := Option (Option Nat)

/-- Embeds `Retransmitter::start_waiting_and_check_for_ack`
(`mqtt_client_retransmitter.rs:112-140`): returns `true` exactly when an ack
arrives within the interval and its packet identifier matches; a
non-matching ack is discarded. -/
def start_waiting_and_check_for_ack (packet_id : Nat) (ev : AckEvent) : Bool :=
  match ev with
  | some (some pid) => pid == packet_id
  | _ => false

/-- The ack channel as a sequence of per-wait outcomes; when the sequence is
exhausted no ack arrives, i.e. every further wait times out. -/
def nextEvent : List AckEvent → AckEvent × List AckEvent
  | [] => (none, [])
  | e :: rest => (e, rest)

/-- Embeds `Retransmitter::has_ack_arrived`
(`mqtt_client_retransmitter.rs:98-108`): errors when the message carries no
packet identifier, otherwise performs one bounded wait on the channel. -/
def has_ack_arrived (packetId : Option Nat) (o : List AckEvent) :
    Except String (Bool × List AckEvent) :=
  match packetId with
  | some pid =>
      let (e, o') := nextEvent o
      .ok (start_waiting_and_check_for_ack pid e, o')
  | none => .error "no packet id"

/-- Embeds the `while !received_ack && remaining_retries > 0` loop of
`Retransmitter::wait_and_retransmit` (`mqtt_client_retransmitter.rs:73-81`):
each iteration re-sends the byte-identical message and then waits once for
the ack.  Returns (ack received, remaining channel events, writes performed
by the loop). -/
def retransmit_loop (msg : ClientMessage) :
    Nat → List AckEvent → Except String Bool × List AckEvent × List (List Nat)
  | 0, o => (.ok false, o, [])
  | Nat.succ n, o =>
      match has_ack_arrived msg.packetId o with
      | .error e => (.error e, o, [msg.bytes])
      | .ok (received, o') =>
          if received then (.ok true, o', [msg.bytes])
          else
            let (r, o'', ws) := retransmit_loop msg n o'
            (r, o'', msg.bytes :: ws)

/-- Embeds `Retransmitter::wait_and_retransmit`
(`mqtt_client_retransmitter.rs:61-92`): one initial wait, then up to
`AMOUNT_OF_RETRIES = 5` retransmissions, and the `MAXRETRIES` error when the
ack never arrived. -/
def wait_and_retransmit (msg : ClientMessage) (o : List AckEvent) :
    Except String Unit × List AckEvent × List (List Nat) :=
  match has_ack_arrived msg.packetId o with
  | .error e => (.error e, o, [])
  | .ok (received, o') =>
      if received then (.ok (), o', [])
      else
        match retransmit_loop msg 5 o' with
        | (.error e, o'', ws) => (.error e, o'', ws)
        | (.ok true, o'', ws) => (.ok (), o'', ws)
        | (.ok false, o'', ws) => (.error "MAXRETRIES", o'', ws)

/-- Embeds `Retransmitter::wait_for_ack_and_retransmit`
(`mqtt_client_retransmitter.rs:38-58`): a QoS-1 PUBLISH and a SUBSCRIBE wait
for their ack; anything else returns at once. -/
def wait_for_ack_and_retransmit (msg : ClientMessage) (o : List AckEvent) :
    Except String Unit × List AckEvent × List (List Nat) :=
  match msg.ptype with
  | .publish => if msg.qos == 1 then wait_and_retransmit msg o else (.ok (), o, [])
  | .subscribe => wait_and_retransmit msg o
  | _ => (.ok (), o, [])

/-- Embeds `Retransmitter::send_and_retransmit`
(`mqtt_client_retransmitter.rs:25-34`): one initial write of
`msg.to_bytes()`, then `wait_for_ack_and_retransmit`; an `Err` from the wait
is only logged (`if let Err(e) = ... {{ log }}`) and the function returns
`Ok(())` regardless.  Stream writes are modelled as succeeding (a transport
write failure, the sole remaining `Err` path, is outside the acknowledgement
behaviour under analysis).  Returns (result, remaining channel events, all
writes performed). -/
def send_and_retransmit (msg : ClientMessage) (o : List AckEvent) :
    Except String Unit × List AckEvent × List (List Nat) :=
  let (_r, o', ws) := wait_for_ack_and_retransmit msg o
  (.ok (), o', msg.bytes :: ws)

/-- A QoS-1 PUBLISH with packet identifier 1, used as the failing input. -/
def pubQos1 : ClientMessage := ⟨.publish, 1, some 1, [48, 2, 0, 1]⟩

/-- C2: the claim says a QoS-1 publish returns `Ok` only if a matching
acknowledgement was observed, and surfaces a failure after exhausting all
retries.  At the failing input — a QoS-1 PUBLISH whose acknowledgement never
arrives (six consecutive timeouts) — `wait_and_retransmit` does report the
`MAXRETRIES` failure, but `send_and_retransmit` swallows it and returns
`Ok(())` to the caller. -/
theorem send_and_retransmit_ok_without_ack :
    (send_and_retransmit pubQos1 (List.replicate 6 none)).1 = .ok () ∧
    (wait_and_retransmit pubQos1 (List.replicate 6 none)).1 = .error "MAXRETRIES" := by
  constructor <;> rfl

theorem retransmit_loop_writes (msg : ClientMessage) (fuel : Nat) (o : List AckEvent) :
    (retransmit_loop msg fuel o).2.2.length ≤ fuel ∧
    (retransmit_loop msg fuel o).2.2.all (fun w => w == msg.bytes) = true := by
  induction fuel generalizing o with
  | zero => simp [retransmit_loop]
  | succ n ih =>
      simp only [retransmit_loop]
      cases h : has_ack_arrived msg.packetId o with
      | error e => simp
      | ok p =>
          obtain ⟨received, o'⟩ := p
          by_cases hr : received = true
          · simp [hr]
          · have hr' : received = false := by
              cases received
              · rfl
              · exact absurd rfl hr
            obtain ⟨ih1, ih2⟩ := ih o'
            simp only [hr', if_false, Bool.false_eq_true]
            constructor
            · simpa [Nat.succ_le_succ_iff] using Nat.succ_le_succ ih1
            · simpa using ih2

theorem wait_and_retransmit_writes (msg : ClientMessage) (o : List AckEvent) :
    (wait_and_retransmit msg o).2.2.length ≤ 5 ∧
    (wait_and_retransmit msg o).2.2.all (fun w => w == msg.bytes) = true := by
  unfold wait_and_retransmit
  cases h : has_ack_arrived msg.packetId o with
  | error e => simp
  | ok p =>
      obtain ⟨received, o'⟩ := p
      by_cases hr : received = true
      · simp [hr]
      · have hr' : received = false := by
          cases received
          · rfl
          · exact absurd rfl hr
        obtain ⟨h1, h2⟩ := retransmit_loop_writes msg 5 o'
        simp only [hr', if_false, Bool.false_eq_true]
        cases hl : retransmit_loop msg 5 o' with
        | mk r rest =>
            obtain ⟨o'', ws⟩ := rest
            rw [hl] at h1 h2
            cases r with
            | error e => exact ⟨h1, h2⟩
            | ok b => cases b <;> exact ⟨h1, h2⟩

/-- C7: for every message and every pattern of acknowledgement arrivals, a
single `send_and_retransmit` call performs at most 6 stream writes — the
initial one plus at most `AMOUNT_OF_RETRIES = 5` retransmissions — and every
write is the byte-identical `msg.to_bytes()`. -/
theorem send_and_retransmit_at_most_six_writes (msg : ClientMessage) (o : List AckEvent) :
    (send_and_retransmit msg o).2.2.length ≤ 6 ∧
    (send_and_retransmit msg o).2.2.all (fun w => w == msg.bytes) = true := by
  unfold send_and_retransmit wait_for_ack_and_retransmit
  cases hp : msg.ptype with
  | publish =>
      by_cases hq : (msg.qos == 1) = true
      · obtain ⟨h1, h2⟩ := wait_and_retransmit_writes msg o
        cases hw : wait_and_retransmit msg o with
        | mk r rest =>
            obtain ⟨o', ws⟩ := rest
            rw [hw] at h1 h2
            simp only [hq, if_true, hw]
            refine ⟨?_, ?_⟩
            · simpa using Nat.succ_le_succ h1
            · simpa using h2
      · simp [hq]
  | subscribe =>
      obtain ⟨h1, h2⟩ := wait_and_retransmit_writes msg o
      cases hw : wait_and_retransmit msg o with
      | mk r rest =>
          obtain ⟨o', ws⟩ := rest
          rw [hw] at h1 h2
          simp only [hw]
          refine ⟨?_, ?_⟩
          · simpa using Nat.succ_le_succ h1
          · simpa using h2
  | connect => simp
  | disconnect => simp

end Retransmitter

namespace Broker

/-- The broker's fan-out index `subs_by_topic`
(`HashMap<String, Vec<Arc<Mutex<TcpStream>>>>`, `message_broker_server.rs:16`);
streams are identified by natural numbers. -/
abbrev SubsByTopic := List (String × List Nat)

/-- `subs_by_top.get(&topic)`. -/
def lookupSubs : SubsByTopic → String → Option (List Nat)
  | [], _ => none
  | p :: rest, t => if p.1 = t then some p.2 else lookupSubs rest t

/-- `subs_b_t.entry(topic).or_insert_with(Vec::new).push(stream)`
(`message_broker_server.rs:207-212`). -/
def entryPush : SubsByTopic → String → Nat → SubsByTopic
  | [], t, s => [(t, [s])]
  | p :: rest, t, s =>
      if p.1 = t then (p.1, p.2 ++ [s]) :: rest else p :: entryPush rest t s

/-- A PUBLISH as the broker handles it: its topic (`get_topic`), its packet
identifier (`get_packet_identifier`), and its encoding (`to_bytes`, the
bytes forwarded unchanged to every subscriber). -/
structure BrokerPublish where
  topic : String
  packetId : Option Nat
  bytes : List Nat
deriving DecidableEq, Repr

/-- The `for subscriber in topic_subscribers` loop of
`distribute_to_subscribers` (`message_broker_server.rs:177-180`):
`write_to_the_client(...)?` stops the loop at the first failing write and
propagates the error.  `writeOk s` tells whether writing to stream `s`
succeeds.  Returns (streams written, whether the loop ended in `Err`). -/
def write_loop (writeOk : Nat → Bool) : List Nat → List Nat × Bool
  | [] => ([], false)
  | s :: rest =>
      if writeOk s then
        let (d, e) := write_loop writeOk rest
        (s :: d, e)
      else ([], true)

/-- Embeds `distribute_to_subscribers` (`message_broker_server.rs:164-184`):
look the topic up in `subs_by_topic` and write `msg.to_bytes()` to every
listed stream in order.  No stream is excluded: the function does not even
receive the publisher's stream. -/
def distribute_to_subscribers (msg : BrokerPublish) (subs : SubsByTopic)
    (writeOk : Nat → Bool) : List Nat × Bool :=
  match lookupSubs subs msg.topic with
  | some topic_subscribers => write_loop writeOk topic_subscribers
  | none => ([], false)

/-- The PUBLISH arm of `continue_with_conection`
(`message_broker_server.rs:258-264`): after `process_publish` reads the
message from `sender_stream` and `send_puback` answers on it, the fan-out
runs over `subs_by_topic` with no reference to `sender_stream`. -/
def handle_publish (_sender_stream : Nat) (msg : BrokerPublish)
    (subs : SubsByTopic) (writeOk : Nat → Bool) : List Nat × Bool :=
  distribute_to_subscribers msg subs writeOk

/-- A concrete PUBLISH on topic `cam` from the client owning stream 7. -/
def pubCam : BrokerPublish := ⟨"cam", some 1, [48, 5]⟩

/-- C3 counterexample: the claim says the sender never receives its own
message back.  With stream 7 both publishing `pubCam` and subscribed to
`"cam"`, the fan-out writes the message to stream 7 as well: the broker
excludes nobody. -/
theorem sender_receives_own_publish :
    7 ∈ (handle_publish 7 pubCam [("cam", [7, 9])] (fun _ => true)).1 := by
  decide

theorem write_loop_all_ok (l : List Nat) :
    write_loop (fun _ => true) l = (l, false) := by
  induction l with
  | nil => rfl
  | cons s rest ih => simp [write_loop, ih]

/-- C3 amended: the forwarded copy is written to every connection in
`subs_by_topic[topic]`, in list order, with no exclusion — including the
publishing client's own connection whenever it is subscribed to the topic
(the sender's stream is not consulted during fan-out). -/
theorem distribute_writes_to_all_subscribers (sender : Nat) (msg : BrokerPublish)
    (subs : SubsByTopic) :
    (handle_publish sender msg subs (fun _ => true)).1 =
      (lookupSubs subs msg.topic).getD [] := by
  unfold handle_publish distribute_to_subscribers
  cases h : lookupSubs subs msg.topic with
  | none => rfl
  | some l => simp [write_loop_all_ok]

/-- One iteration outcome of the reader loop in
`ClientReader::read_packets_from_stream` (`client_reader.rs:177-201`). -/
inductive ReadResult where
  | packet (isDisconnect : Bool)
  | endOfStream
  | readErr
deriving DecidableEq, Repr

/-- What the loop does with that iteration. -/
inductive ReaderOutcome where
  | voluntary
  | involuntary
  | continueLoop
  | unimplementedStop
deriving DecidableEq, Repr

/-- Embeds the `match get_fixed_header_from_stream(...)` dispatch of
`read_packets_from_stream` (`client_reader.rs:178-199`): a DISCONNECT packet
ends the loop voluntarily, any other packet is forwarded and the loop
continues, `Ok(None)` (end of stream) ends it with the involuntary reason,
and `Err(_)` hits `todo!()` — the thread panics instead of reaching either
disconnect path. -/
def read_packets_step : ReadResult → ReaderOutcome
  | .packet true => .voluntary
  | .packet false => .continueLoop
  | .endOfStream => .involuntary
  | .readErr => .unimplementedStop

/-- Connection status of a user (`Active` / `TemporarilyDisconnected`). -/
inductive UserStatus where
  | active
  | temporarilyDisconnected
deriving DecidableEq, Repr

/-- The server state touched by the involuntary-disconnect path: the `users`
registry, the subscription index, and the list of client ids whose will has
been published. -/
structure ServerState where
  users : List (String × UserStatus)
  subs_by_topic : SubsByTopic
  publishedWills : List String
deriving DecidableEq, Repr

/-- `users.find(client_id)`. -/
def lookupUser : List (String × UserStatus) → String → Option UserStatus
  | [], _ => none
  | p :: rest, c => if p.1 = c then some p.2 else lookupUser rest c

/-- Modelled from the spec:
`MQTTServer::set_user_as_temporally_disconnected` (file `mqtt_server.rs` is
not among the provided sources) — mark the user `TemporarilyDisconnected`,
touching nothing else. -/
def set_user_as_temporally_disconnected (s : ServerState) (client_id : String) :
    ServerState :=
  { s with
    users := s.users.map fun p =>
      if p.1 = client_id then (p.1, UserStatus.temporarilyDisconnected) else p }

/-- Modelled from the spec: `MQTTServer::publish_users_will_message` (file
`mqtt_server.rs` is not among the provided sources) — publish the user's
stored will; recorded here as the client id being appended to the list of
published wills. -/
def publish_users_will_message (s : ServerState) (client_id : String) : ServerState :=
  { s with publishedWills := s.publishedWills ++ [client_id] }

/-- Embeds `ClientReader::server_handle_client_disconnection`
(`client_reader.rs:152-158`): mark the user `TemporarilyDisconnected`, then
publish the will; subscriptions are left untouched. -/
def server_handle_client_disconnection (s : ServerState) (client_id : String) :
    ServerState :=
  publish_users_will_message (set_user_as_temporally_disconnected s client_id) client_id

/-- A PUBLISH on `cam` whose first fan-out write (stream 1) fails. -/
def pubCam2 : BrokerPublish := ⟨"cam", some 2, [48, 5]⟩

/-- C4 counterexample: the claim says a write error toward one subscriber is
logged and the fan-out continues with the remaining subscribers, and that a
read error triggers the involuntary-disconnect path.  With subscribers
`[1, 2]` and the write to stream 1 failing, the fan-out stops with an error
and stream 2 never receives the message; and a read error on the client
stream reaches `todo!()` instead of the involuntary path. -/
theorem write_error_aborts_fanout :
    (distribute_to_subscribers pubCam2 [("cam", [1, 2])] (fun s => s != 1)) = ([], true) ∧
    2 ∉ (distribute_to_subscribers pubCam2 [("cam", [1, 2])] (fun s => s != 1)).1 ∧
    read_packets_step .readErr ≠ .involuntary := by
  refine ⟨?_, ?_, ?_⟩ <;> decide

theorem write_loop_takeWhile (writeOk : Nat → Bool) (l : List Nat) :
    write_loop writeOk l = (l.takeWhile writeOk, !l.all writeOk) := by
  induction l with
  | nil => rfl
  | cons s rest ih =>
      by_cases hs : writeOk s = true
      · simp [write_loop, List.takeWhile, List.all, hs, ih]
      · have hs' : writeOk s = false := by
          cases h : writeOk s
          · rfl
          · exact absurd h hs
        simp [write_loop, List.takeWhile, List.all, hs']

theorem lookupUser_map_update (users : List (String × UserStatus)) (c : String) :
    lookupUser (users.map
      (fun p => if p.1 = c then (p.1, UserStatus.temporarilyDisconnected) else p)) c =
    (lookupUser users c).map (fun _ => UserStatus.temporarilyDisconnected) := by
  induction users with
  | nil => rfl
  | cons p rest ih =>
      by_cases hp : p.1 = c
      · simp [lookupUser, hp]
      · simp only [List.map_cons, if_neg hp, lookupUser, if_neg hp]
        exact ih

/-- C4 amended: transport errors never abort the broker process, but they do
not behave as claimed per-connection: a write error toward one subscriber
during fan-out aborts the remaining fan-out and surfaces as an error (the
delivered streams are exactly the longest all-successful front of the
subscriber list); end-of-stream — not a read error, which stops in
unimplemented `todo!()` code — collapses the connection with the involuntary
outcome, whose handler marks the user `TemporarilyDisconnected`, publishes
the will, and keeps `subs_by_topic` intact. -/
theorem transport_error_handling (msg : BrokerPublish) (subs : SubsByTopic)
    (writeOk : Nat → Bool) (s : ServerState) (client_id : String) :
    distribute_to_subscribers msg subs writeOk =
      (((lookupSubs subs msg.topic).getD []).takeWhile writeOk,
        !((lookupSubs subs msg.topic).getD []).all writeOk) ∧
    read_packets_step .endOfStream = .involuntary ∧
    read_packets_step .readErr = .unimplementedStop ∧
    (server_handle_client_disconnection s client_id).subs_by_topic = s.subs_by_topic ∧
    (server_handle_client_disconnection s client_id).publishedWills =
      s.publishedWills ++ [client_id] ∧
    lookupUser (server_handle_client_disconnection s client_id).users client_id =
      (lookupUser s.users client_id).map (fun _ => UserStatus.temporarilyDisconnected) := by
  refine ⟨?_, rfl, rfl, rfl, rfl, ?_⟩
  · unfold distribute_to_subscribers
    cases h : lookupSubs subs msg.topic with
    | none => simp
    | some l => simp [write_loop_takeWhile]
  · simp only [server_handle_client_disconnection, publish_users_will_message,
      set_user_as_temporally_disconnected]
    exact lookupUser_map_update s.users client_id

/-- The SUBACK return codes (`SubscribeReturnCode`). -/
inductive SubscribeReturnCode where
  | qos0
  | qos1
  | failure
deriving DecidableEq, Repr

/-- A SUBSCRIBE as the broker handles it: packet identifier and the
`(topic-filter, requested-QoS)` pairs returned by `get_topic_filters`. -/
structure SubscribeMsg where
  packetId : Nat
  topicFilters : List (String × Nat)
deriving DecidableEq, Repr

/-- Modelled from the spec: `SubAckMessage` (file `suback_message.rs` is not
among the provided sources) — a packet identifier (its first constructor
argument, per the spec's `SUBACK = [0x90, len, PID_MSB, PID_LSB, RC…]`) and
one return code per filter. -/
structure SubAckMessage where
  packetId : Nat
  returnCodes : List SubscribeReturnCode
deriving DecidableEq, Repr

/-- The `for (topic, _qos) in msg.get_topic_filters()` loop of
`add_subscribers_to_topic` (`message_broker_server.rs:203-214`): push
`SubscribeReturnCode::QoS1` for every filter regardless of the requested
QoS, and register the stream under the topic. -/
def add_subs_loop (stream : Nat) :
    List (String × Nat) → SubsByTopic → List SubscribeReturnCode × SubsByTopic
  | [], subs => ([], subs)
  | (topic, _qos) :: rest, subs =>
      let subs' := entryPush subs topic stream
      let (codes, subs'') := add_subs_loop stream rest subs'
      (.qos1 :: codes, subs'')

/-- Embeds `add_subscribers_to_topic` (`message_broker_server.rs:198-216`). -/
def add_subscribers_to_topic (msg : SubscribeMsg) (stream : Nat)
    (subs : SubsByTopic) : List SubscribeReturnCode × SubsByTopic :=
  add_subs_loop stream msg.topicFilters subs

/-- Embeds `send_suback` (`message_broker_server.rs:218-227`): the SUBACK is
built as `SubAckMessage::new(0, return_codes)` — packet identifier literal 0. -/
def send_suback (return_codes : List SubscribeReturnCode) : SubAckMessage :=
  ⟨0, return_codes⟩

/-- The SUBSCRIBE arm of `continue_with_conection`
(`message_broker_server.rs:265-271`): register the subscriber, then reply
with the SUBACK. -/
def process_subscribe_reply (msg : SubscribeMsg) (stream : Nat)
    (subs : SubsByTopic) : SubAckMessage × SubsByTopic :=
  let (return_codes, subs') := add_subscribers_to_topic msg stream subs
  (send_suback return_codes, subs')

/-- A SUBSCRIBE with packet identifier 5 and one topic filter. -/
def subCam : SubscribeMsg := ⟨5, [("cam", 1)]⟩

/-- C5 counterexample: the claim says the SUBACK carries the same packet
identifier as the SUBSCRIBE.  For a SUBSCRIBE with packet identifier 5 the
broker replies with packet identifier 0 (`SubAckMessage::new(0, ...)`). -/
theorem suback_packet_id_not_echoed :
    (process_subscribe_reply subCam 3 []).1.packetId = 0 ∧
    subCam.packetId = 5 ∧ (0 : Nat) ≠ 5 := by
  refine ⟨rfl, rfl, by decide⟩

theorem add_subs_loop_codes (stream : Nat) (filters : List (String × Nat))
    (subs : SubsByTopic) :
    (add_subs_loop stream filters subs).1 =
      filters.map (fun _ => SubscribeReturnCode.qos1) := by
  induction filters generalizing subs with
  | nil => rfl
  | cons f rest ih =>
      obtain ⟨topic, qos⟩ := f
      simp [add_subs_loop, ih]

/-- C5 amended: for every SUBSCRIBE the broker accepts, the SUBACK carries
packet identifier 0 — regardless of the SUBSCRIBE's packet identifier — and
exactly one return code per topic filter, each being `QoS1`. -/
theorem suback_zero_pid_one_qos1_per_filter (msg : SubscribeMsg) (stream : Nat)
    (subs : SubsByTopic) :
    (process_subscribe_reply msg stream subs).1.packetId = 0 ∧
    (process_subscribe_reply msg stream subs).1.returnCodes =
      msg.topicFilters.map (fun _ => SubscribeReturnCode.qos1) := by
  constructor
  · rfl
  · unfold process_subscribe_reply add_subscribers_to_topic
    simp [add_subs_loop_codes, send_suback]

end Broker

namespace ConnectMsg

/-- UTF-8 bytes of a Rust string (`s.as_bytes()` / `s.len()`); the
credential and identifier strings involved are ASCII, for which the bytes
are the character codes. -/
def strBytes (s : String) : List Nat :=
  s.toList.map Char.toNat

/-- A `ConnectMessage` as built by `ConnectMessage::new`
(`connect_message.rs:44-88`): `message_type` as passed in, the payload
strings, and the connect flags derived from the options
(`username_flag = username.is_some()`, `password_flag = password.is_some()`,
`will_flag = will_topic.is_some() && will_message.is_some()`,
`will_retain = false`, `will_qos = 0`, `clean_session = true`,
`reserved = false`). -/
structure ConnectMessage where
  message_type : Nat
  client_id : String
  will_topic : Option String
  will_message : Option String
  username : Option String
  password : Option String
deriving DecidableEq, Repr

/-- Embeds `ConnectFlags::to_byte` (`connect_message.rs:134-153`) applied to
the flags `ConnectMessage::new` derives. -/
def connect_flags_byte (m : ConnectMessage) : Nat :=
  (if m.username.isSome then 0x80 else 0) |||
  (if m.password.isSome then 0x40 else 0) |||
  (if m.will_topic.isSome && m.will_message.isSome then 0x04 else 0) |||
  0x02

/-- Total byte length of the payload strings
(`payload_length` in `calculate_remaining_length`). -/
def payload_length (m : ConnectMessage) : Nat :=
  (strBytes m.client_id).length +
  ((m.will_topic.map strBytes).getD []).length +
  ((m.will_message.map strBytes).getD []).length +
  ((m.username.map strBytes).getD []).length +
  ((m.password.map strBytes).getD []).length

/-- Embeds `ConnectMessage::calculate_remaining_length`
(`connect_message.rs:89-98`): `variable_header_length` is hard-coded 7
(commented as "5 bytes for MQTT" plus level and flags, although the stored
protocol name is 4 bytes), and the sum is cast `as u8`. -/
def calculate_remaining_length (m : ConnectMessage) : Nat :=
  (7 + payload_length m) % 256

/-- Embeds `ConnectMessage::to_bytes` (`connect_message.rs:100-130`): fixed
header, the 4-byte protocol name `"MQTT"`, protocol level 4, the flags byte,
then every payload string written raw via `extend_from_slice` — no length
prefix of any kind. -/
def to_bytes (m : ConnectMessage) : List Nat :=
  [m.message_type, calculate_remaining_length m] ++
  [77, 81, 84, 84] ++
  [4] ++
  [connect_flags_byte m] ++
  strBytes m.client_id ++
  (m.will_topic.map strBytes).getD [] ++
  (m.will_message.map strBytes).getD [] ++
  (m.username.map strBytes).getD [] ++
  (m.password.map strBytes).getD []

/-- A CONNECT with client identifier `"ab"` and no optional fields. -/
def connectAb : ConnectMessage := ⟨1, "ab", none, none, none, none⟩

/-- C6 counterexample: the claim says the remaining-length byte equals the
number of bytes that follow the fixed header.  For the CONNECT with client
identifier `"ab"`, 8 bytes follow the fixed header but the remaining-length
byte reads 9 (and the client identifier bytes `[97, 98]` appear with no
16-bit length prefix). -/
theorem connect_remaining_length_mismatch :
    ¬ ((to_bytes connectAb).get? 1 = some ((to_bytes connectAb).drop 2).length) := by
  decide

/-- C6 amended: `to_bytes` writes every string field raw, with no length
prefix (the bytes after position 8 are exactly the concatenation of the
string fields' bytes), and the remaining-length byte holds
`(7 + total string length) mod 256` — one more than the `6 + total` bytes
that actually follow the fixed header (below the `u8` wraparound). -/
theorem connect_to_bytes_layout (m : ConnectMessage) :
    (to_bytes m).get? 1 = some ((7 + payload_length m) % 256) ∧
    ((to_bytes m).drop 2).length = 6 + payload_length m ∧
    (to_bytes m).drop 8 =
      strBytes m.client_id ++
      (m.will_topic.map strBytes).getD [] ++
      (m.will_message.map strBytes).getD [] ++
      (m.username.map strBytes).getD [] ++
      (m.password.map strBytes).getD [] := by
  refine ⟨rfl, ?_, ?_⟩
  · simp only [to_bytes, calculate_remaining_length, payload_length]
    simp [List.length_append]
    ring
  · simp only [to_bytes]
    rw [show ([m.message_type, calculate_remaining_length m] ++
      [77, 81, 84, 84] ++ [4] ++ [connect_flags_byte m] : List Nat) =
      [m.message_type, calculate_remaining_length m, 77, 81, 84, 84, 4,
        connect_flags_byte m] from rfl]
    simp [List.append_assoc]

/-- Embeds `authenticate` (`message_broker_server.rs:101-118`): exact match
of `get_user()` / `get_passwd()` against the hard-coded credential pair;
the CONNACK is `[0x20, 0x02, 0x00, 0x00]` on success and
`[0x20, 0x02, 0x00, 0x05]` on failure. -/
def authenticate (m : ConnectMessage) : Bool × List Nat :=
  let is_authentic :=
    match m.username, m.password with
    | some u, some p => u == "sistema-monitoreo" && p == "rustx123"
    | _, _ => false
  (is_authentic,
    if is_authentic then [0x20, 0x02, 0x00, 0x00] else [0x20, 0x02, 0x00, 0x05])

/-- Embeds `process_connect` (`message_broker_server.rs:70-99`) after the
message is decoded: authenticate, write the CONNACK, and enter
`handle_connection` only `if is_authentic`.  Returns (CONNACK bytes, whether
the client-handling loop is entered). -/
def process_connect (m : ConnectMessage) : List Nat × Bool :=
  let (is_authentic, connack_response) := authenticate m
  (connack_response, is_authentic)

/-- C8: the CONNACK is exactly `[0x20, 0x02, 0x00, RC]` with `RC = 0x00` if
and only if the supplied username and password are present and equal
`sistema-monitoreo` / `rustx123`, and `RC = 0x05` otherwise; the
client-handling loop is entered exactly on success. -/
theorem connack_exact_bytes (m : ConnectMessage) :
    ((process_connect m).1 = [0x20, 0x02, 0x00, 0x00] ↔
      (m.username = some "sistema-monitoreo" ∧ m.password = some "rustx123")) ∧
    ((process_connect m).1 = [0x20, 0x02, 0x00, 0x00] ∨
      (process_connect m).1 = [0x20, 0x02, 0x00, 0x05]) ∧
    ((process_connect m).2 = true ↔
      (m.username = some "sistema-monitoreo" ∧ m.password = some "rustx123")) := by
  unfold process_connect authenticate
  cases hu : m.username with
  | none => simp
  | some u =>
      cases hp : m.password with
      | none => simp
      | some p =>
          by_cases huv : u = "sistema-monitoreo"
          · by_cases hpv : p = "rustx123"
            · simp [huv, hpv]
            · simp [huv, hpv]
          · simp [huv]

end ConnectMsg

namespace Camaras

/-- `IncidentInfo`, the hash key identifying an incident across its lifetime
(derived from id and origin). -/
structure IncidentInfo where
  incId : Nat
  origin : Nat
deriving DecidableEq, Repr

/-- An incident as received by the camera system: its info key, its
position, and whether its status is `Resolved` (`is_resolved`). -/
structure Incident where
  info : IncidentInfo
  position : Int × Int
  resolved : Bool

/-- Modelled from the spec: a `Camera` (file `camera.rs` is not among the
provided sources) — id, neighbor-camera id list, the `incidents_in_range`
set (a duplicate-free list), and `will_register`, the geometric range test
(f64 geometry abstracted as a boolean predicate on the incident position;
no settled claim evaluates it). -/
structure Camera where
  camId : Nat
  borderingCams : List Nat
  incsInRange : List IncidentInfo
  willRegister : Int × Int → Bool

/-- Modelled from the spec: `Camera::append_to_incs_being_managed` — add the
info to the camera's set; the returned flag says whether the camera just
transitioned `SavingMode → Active`, i.e. whether the set grew from empty to
non-empty. -/
def Camera.append_to_incs_being_managed (c : Camera) (info : IncidentInfo) :
    Camera × Bool :=
  let changed := c.incsInRange.isEmpty
  let incs' := if info ∈ c.incsInRange then c.incsInRange else c.incsInRange ++ [info]
  ({ c with incsInRange := incs' }, changed)

/-- Modelled from the spec: `Camera::remove_from_incs_being_managed` —
remove the info from the camera's set; the returned flag says whether the
camera just transitioned `Active → SavingMode`, i.e. whether the set became
empty. -/
def Camera.remove_from_incs_being_managed (c : Camera) (info : IncidentInfo) :
    Camera × Bool :=
  let incs' := c.incsInRange.filter (fun i => i ≠ info)
  let changed := !c.incsInRange.isEmpty && incs'.isEmpty
  ({ c with incsInRange := incs' }, changed)

/-- The state of `CamerasLogic` (`sistema_camaras_logic.rs:14-20`): the
camera registry, `incs_being_managed : IncidentInfo → Vec<u8>`, and the
cameras sent through `cameras_tx` for publication (recorded by id). -/
structure CamerasLogic where
  cameras : List (Nat × Camera)
  incs_being_managed : List (IncidentInfo × List Nat)
  published : List Nat

/-- `cams.get_mut(cam_id)`. -/
def getCam : List (Nat × Camera) → Nat → Option Camera
  | [], _ => none
  | p :: rest, i => if p.1 = i then some p.2 else getCam rest i

/-- Replace the camera stored under an id. -/
def setCam : List (Nat × Camera) → Nat → Camera → List (Nat × Camera)
  | [], _, _ => []
  | p :: rest, i, c => if p.1 = i then (p.1, c) :: rest else p :: setCam rest i c

/-- `incs_being_managed.get(&info)`. -/
def lookupIncs : List (IncidentInfo × List Nat) → IncidentInfo → Option (List Nat)
  | [], _ => none
  | p :: rest, i => if p.1 = i then some p.2 else lookupIncs rest i

/-- `incs_being_managed.remove(&info)`. -/
def removeIncs : List (IncidentInfo × List Nat) → IncidentInfo →
    List (IncidentInfo × List Nat)
  | [], _ => []
  | p :: rest, i => if p.1 = i then rest else p :: removeIncs rest i

/-- Embeds `CamerasLogic::start_paying_attention_to`
(`sistema_camaras_logic.rs:166-176`): add the incident to the camera's set
and publish the camera iff that changed its state to `Active`. -/
def start_paying_attention_to (s : CamerasLogic) (inc : Incident) (camId : Nat) :
    CamerasLogic :=
  match getCam s.cameras camId with
  | none => s
  | some cam =>
      let (cam', changed) := cam.append_to_incs_being_managed inc.info
      { s with
        cameras := setCam s.cameras camId cam',
        published := if changed then s.published ++ [camId] else s.published }

/-- Embeds `CamerasLogic::stop_paying_attention_to`
(`sistema_camaras_logic.rs:81-95`): remove the incident from the camera's
set and publish the camera iff that changed its state to `SavingMode`. -/
def stop_paying_attention_to (s : CamerasLogic) (inc : Incident) (camId : Nat) :
    CamerasLogic :=
  match getCam s.cameras camId with
  | none => s
  | some cam =>
      let (cam', changed) := cam.remove_from_incs_being_managed inc.info
      { s with
        cameras := setCam s.cameras camId cam',
        published := if changed then s.published ++ [camId] else s.published }

/-- Embeds `CamerasLogic::get_id_of_cams_that_will_change_state_to_active`
(`sistema_camaras_logic.rs:135-161`): every camera whose `will_register`
accepts the incident position contributes its own id followed by its
neighbors' ids. -/
def get_id_of_cams_that_will_change_state_to_active
    (cams : List (Nat × Camera)) (inc : Incident) : List Nat :=
  cams.foldl
    (fun acc p =>
      if p.2.willRegister inc.position then acc ++ [p.1] ++ p.2.borderingCams else acc)
    []

/-- Embeds `CamerasLogic::process_first_time_incident`
(`sistema_camaras_logic.rs:100-132`): for an unresolved first-seen incident,
activate every camera in range and its neighbors, then record the id list
under `incs_being_managed`; a resolved first-seen incident is ignored. -/
def process_first_time_incident (s : CamerasLogic) (inc : Incident) : CamerasLogic :=
  if !inc.resolved then
    let ids := get_id_of_cams_that_will_change_state_to_active s.cameras inc
    let s' := ids.foldl (fun st cid => start_paying_attention_to st inc cid) s
    { s' with incs_being_managed := s'.incs_being_managed ++ [(inc.info, ids)] }
  else s

/-- Embeds `CamerasLogic::process_known_incident`
(`sistema_camaras_logic.rs:46-76`): only a resolved re-delivery acts — each
recorded camera drops the incident, and the `incs_being_managed` entry is
removed; an unresolved re-delivery does nothing. -/
def process_known_incident (s : CamerasLogic) (inc : Incident) : CamerasLogic :=
  if inc.resolved then
    let ids := (lookupIncs s.incs_being_managed inc.info).getD []
    let s' := ids.foldl (fun st cid => stop_paying_attention_to st inc cid) s
    { s' with incs_being_managed := removeIncs s'.incs_being_managed inc.info }
  else s

/-- Embeds `CamerasLogic::manage_incident` (`sistema_camaras_logic.rs:34-41`):
dispatch on whether the incident info is already a key of
`incs_being_managed`. -/
def manage_incident (s : CamerasLogic) (inc : Incident) : CamerasLogic :=
  if (lookupIncs s.incs_being_managed inc.info).isSome then
    process_known_incident s inc
  else
    process_first_time_incident s inc

/-- C9: `manage_incident` is idempotent per incident info — re-delivering an
unresolved incident whose info is already a key of `incs_being_managed`
leaves the whole state (every camera's incident set and state,
`incs_being_managed`, and the list of emitted camera publications)
unchanged. -/
theorem manage_incident_idempotent (s : CamerasLogic) (inc : Incident)
    (hres : inc.resolved = false)
    (hknown : (lookupIncs s.incs_being_managed inc.info).isSome = true) :
    manage_incident s inc = s := by
  unfold manage_incident process_known_incident
  simp [hknown, hres]

/-- A concrete camera state: camera 1 attends incident `(4, 0)`, which is
recorded in `incs_being_managed`. -/
def sampleState : CamerasLogic :=
  { cameras := [(1, ⟨1, [2], [⟨4, 0⟩], fun _ => false⟩)],
    incs_being_managed := [(⟨4, 0⟩, [1])],
    published := [1] }

/-- Witness for `manage_incident_idempotent`: re-delivering the active
incident `(4, 0)` to `sampleState` changes nothing. -/
theorem manage_incident_idempotent_witness :
    manage_incident sampleState ⟨⟨4, 0⟩, (0, 0), false⟩ = sampleState :=
  manage_incident_idempotent sampleState ⟨⟨4, 0⟩, (0, 0), false⟩ rfl (by decide)

end Camaras
